import Mathlib

/-!
Verification of the embedded-terminal core of the `codestral` repository
(terminal component: line editor, history, completion, output formatting,
command dispatch, session tabs).  The definitions below are a shallow
embedding of the TypeScript source: each `def` mirrors one piece of the
component (the big `onData` callback, `executeCommand`, `closeTerminal`,
the `AUTOCOMPLETE_COMMANDS` vocabulary).  JavaScript string primitives
(`trim`, `toLowerCase`, `split('\n')`, `startsWith`, `includes`,
`lastIndexOf`) are re-implemented character-wise so that everything is
computable by the kernel.
-/

namespace Codestral

/-- JavaScript-style whitespace test for `String.prototype.trim` (the
characters actually occurring in terminal input/output). -/
def isWS (c : Char) : Bool := c == ' ' || c == '\t' || c == '\n' || c == '\r'

/-- JS `s.trim()`: strip leading and trailing whitespace. -/
def jsTrim (s : String) : String :=
  String.mk (((s.toList.dropWhile isWS).reverse.dropWhile isWS).reverse)

/-- JS `s.toLowerCase()` (character-wise, sufficient for ASCII patterns). -/
def jsToLower (s : String) : String := String.mk (s.toList.map Char.toLower)

/-- JS `s.startsWith(pat)`. -/
def jsStartsWith (s pat : String) : Bool := pat.toList.isPrefixOf s.toList

/-- Contiguous-sublist test on character lists (JS `String.prototype.includes`). -/
def hasSub : List Char → List Char → Bool
  | [], pat => pat.isEmpty
  | c :: rest, pat => pat.isPrefixOf (c :: rest) || hasSub rest pat

/-- JS `s.includes(pat)`. -/
def strContains (s pat : String) : Bool := hasSub s.toList pat.toList

/-- Helper for `jsSplitNewline`: accumulate the current (reversed) segment. -/
def splitLinesAux (cur : List Char) : List Char → List String
  | [] => [String.mk cur.reverse]
  | c :: rest =>
    if c == '\n' then String.mk cur.reverse :: splitLinesAux [] rest
    else splitLinesAux (c :: cur) rest

/-- JS `s.split('\n')`. -/
def jsSplitNewline (s : String) : List String := splitLinesAux [] s.toList

/-- JS `s.substring(0, n)` (first `n` characters). -/
def jsTake (s : String) (n : Nat) : String := String.mk (s.toList.take n)

/-- JS `s.substring(n)` (drop the first `n` characters). -/
def jsDrop (s : String) (n : Nat) : String := String.mk (s.toList.drop n)

/-- JS `s.slice(0, -1)` (drop the last character). -/
def jsDropLast (s : String) : String := String.mk s.toList.dropLast

/-- JS `s.lastIndexOf(c)`: index of the last occurrence, `-1` if absent. -/
def lastIndexOfChar (s : String) (c : Char) : Int :=
  match (s.toList.enum.filterMap
      (fun p => if p.2 == c then some p.1 else none)).getLast? with
  | some i => (i : Int)
  | none => -1

/-- JS `ch.repeat(n)` for a single character. -/
def charRepeat (n : Nat) (c : Char) : String := String.mk (List.replicate n c)

/-- Top border of the 63-column banner boxes. -/
def boxTop : String := "╔" ++ charRepeat 63 '═' ++ "╗"

/-- Bottom border of the 63-column banner boxes. -/
def boxBottom : String := "╚" ++ charRepeat 63 '═' ++ "╝"

/-- ANSI wrap colors used by the component.  A `writeln` whose text is
wrapped whole in one escape pair is recorded with that color; lines with
only inline coloring are recorded as `plain` with the markers omitted. -/
inductive Color where
  | red | green | yellow | cyan | gray | plain
deriving DecidableEq

/-- Semantic tag of an output line (`executeCommand` line formatting). -/
inductive Tag where
  | error | warning | success | pointer | plain
deriving DecidableEq

/-- The ANSI color the source wraps each tag in. -/
def tagColor : Tag → Color
  | .error => .red
  | .warning => .yellow
  | .success => .green
  | .pointer => .cyan
  | .plain => .plain

/-- Display/timer effects emitted by the handlers (xterm `write`/`writeln`/
`clear`, `setTimeout` sleeps, terminal disposal). -/
inductive Eff where
  | write (s : String)
  | writeln (c : Color) (s : String)
  | clearScreen
  | sleep (ms : Nat)
  | dispose
deriving DecidableEq

/-- First test of the line formatter: `line.toLowerCase().includes('error') ||
line.toLowerCase().includes('failed')`. -/
def errTest (line : String) : Bool :=
  strContains (jsToLower line) "error" || strContains (jsToLower line) "failed"

/-- `line.toLowerCase().includes('warning')`. -/
def warnTest (line : String) : Bool := strContains (jsToLower line) "warning"

/-- `line.toLowerCase().includes('success') || line.toLowerCase().includes('done')`. -/
def succTest (line : String) : Bool :=
  strContains (jsToLower line) "success" || strContains (jsToLower line) "done"

/-- `line.includes('→') || line.includes('=>')` (tested on the raw line). -/
def pointerTest (line : String) : Bool :=
  strContains line "→" || strContains line "=>"

/-- The output formatter of `executeCommand`: the if/else-if cascade that
picks the highlight applied to each output line. -/
def classifyLine (line : String) : Tag :=
  if errTest line then .error
  else if warnTest line then .warning
  else if succTest line then .success
  else if pointerTest line then .pointer
  else .plain

/-- The static completion vocabulary `AUTOCOMPLETE_COMMANDS`. -/
def AUTOCOMPLETE_COMMANDS : List String :=
  [ "ls", "ls -la", "ls -l", "pwd", "cd", "cd ..", "cd ~", "mkdir", "rmdir",
    "rm", "rm -rf", "cp", "cp -r", "mv", "touch", "cat", "less", "more",
    "head", "tail", "find", "find . -name", "grep", "grep -r",
    "whoami", "which", "whereis", "top", "ps", "ps aux", "df -h", "free -h",
    "uname -a", "history", "clear",
    "node", "node --version", "npm", "npm --version", "npm install", "npm run",
    "yarn", "yarn --version", "pnpm", "pnpm --version", "npx",
    "python", "python --version", "python3", "python3 --version", "pip", "pip3",
    "git", "git --version", "git status", "git add", "git commit", "git push", "git pull",
    "git clone", "git checkout", "git branch", "git log", "git diff",
    "kill", "killall", "jobs", "bg", "fg", "&", "nohup",
    "curl", "wget", "ping", "ssh", "scp",
    "tar", "tar -czf", "tar -xzf", "zip", "unzip",
    "sed", "awk", "sort", "uniq", "wc", "cut", "tr" ]

/-- The Tab-completion query: `AUTOCOMPLETE_COMMANDS.filter(cmd =>
cmd.startsWith(currentLine))`. -/
def autocompleteOptions (line : String) : List String :=
  AUTOCOMPLETE_COMMANDS.filter (fun cmd => jsStartsWith cmd line)

/-- Classification of a submitted command by `executeCommand`'s if-chain:
`clear`, `history`, `help`/`--help`/`-h`, `cd <arg>` are handled locally,
everything else goes to the Firecracker executor. -/
inductive CommandClass where
  | builtinClear
  | builtinHistory
  | builtinHelp
  | builtinCd (arg : String)
  | remote
deriving DecidableEq

/-- The builtin-detection cascade at the top of `executeCommand`. -/
def classifyCommand (command : String) : CommandClass :=
  if command == "clear" then .builtinClear
  else if command == "history" then .builtinHistory
  else if command == "help" || command == "--help" || command == "-h" then .builtinHelp
  else if jsStartsWith command "cd " then .builtinCd (jsTrim (jsDrop command 3))
  else .remote

/-- `output.split('\n').filter(line => line.trim())`: the executor output
lines that survive the whitespace filter. -/
def nonEmptyLines (output : String) : List String :=
  (jsSplitNewline output).filter (fun line => !(jsTrim line == ""))

/-- `command.includes('npm') || command.includes('git') || command.includes('yarn')`:
gates the 10 ms inter-line streaming delay. -/
def isStreaming (command : String) : Bool :=
  strContains command "npm" || strContains command "git" || strContains command "yarn"

/-- The per-line echo of a successful remote result: each surviving line is
written with its highlight, followed by the streaming delay when gated. -/
def outputEffects (command output : String) : List Eff :=
  ((nonEmptyLines output).map (fun line =>
    [Eff.writeln (tagColor (classifyLine line)) line] ++
      (if isStreaming command then [Eff.sleep 10] else []))).flatten

/-- The fixed help transcript printed by the `help` builtin (text without
inline escape markers; see `Eff`). -/
def helpEffects (dir : String) : List Eff :=
  [ Eff.writeln .cyan boxTop,
    Eff.writeln .cyan "║                    CodeStral IDE Terminal Help                 ║",
    Eff.writeln .cyan boxBottom,
    Eff.writeln .plain "",
    Eff.writeln .yellow "Keyboard Shortcuts:",
    Eff.writeln .plain "  Ctrl+C     - Interrupt current command",
    Eff.writeln .plain "  Ctrl+L     - Clear terminal",
    Eff.writeln .plain "  Ctrl+W     - Delete previous word",
    Eff.writeln .plain "  Ctrl+K     - Clear to end of line",
    Eff.writeln .plain "  ↑/↓        - Command history navigation",
    Eff.writeln .plain "  Tab       - Command autocomplete",
    Eff.writeln .plain "",
    Eff.writeln .yellow "Built-in Commands:",
    Eff.writeln .plain "  help      - Show this help message",
    Eff.writeln .plain "  clear     - Clear terminal screen",
    Eff.writeln .plain "  history   - Show command history",
    Eff.writeln .plain "",
    Eff.writeln .yellow "Tips:",
    Eff.writeln .plain "  • Use Tab for command completion",
    Eff.writeln .plain "  • ↑/↓ arrows navigate command history",
    Eff.writeln .plain "  • Click terminal tabs to switch between sessions",
    Eff.writeln .plain "  • Use + button to create new terminal sessions",
    Eff.writeln .plain "",
    Eff.write (dir ++ "$ ") ]

/-- The `history` builtin: `history.forEach((cmd, index) => writeln(index+1 + '  ' + cmd))`. -/
def historyEffects (history : List String) : List Eff :=
  history.enum.map (fun p => Eff.writeln .plain (toString (p.1 + 1) ++ "  " ++ p.2))

/-- The gray `[Execution time: Nms]` trailer. -/
def timeLine (t : Nat) : Eff :=
  Eff.writeln .gray ("[Execution time: " ++ toString t ++ "ms]")

/-- Result of one `executeCommand` run: the display/timer effects, the
session's working directory afterwards, and whether the control flow
reached the `firecrackerService.executeCommand` call. -/
structure ExecOutcome where
  effects : List Eff
  newDir : String
  executorCalled : Bool
deriving DecidableEq

/-- Shallow embedding of `executeCommand(command, xtermTerminal, tab)`.
`execResult` stands for the promise returned by the executor
(`Except.error` = rejection/throw), `executionTime` for the measured
wall-clock duration `Date.now() - executionStartTime`. -/
def executeCommand (history : List String) (dir command : String)
    (execResult : Except String String) (executionTime : Nat) : ExecOutcome :=
  match classifyCommand command with
  | .builtinClear =>
    { effects := [Eff.clearScreen, Eff.write (dir ++ "$ ")],
      newDir := dir, executorCalled := false }
  | .builtinHistory =>
    { effects := historyEffects history, newDir := dir, executorCalled := false }
  | .builtinHelp =>
    { effects := helpEffects dir, newDir := dir, executorCalled := false }
  | .builtinCd arg =>
    let newDir := if arg == "" then "/workspace" else arg
    { effects := [Eff.write (newDir ++ "$ ")], newDir := newDir, executorCalled := false }
  | .remote =>
    let echo := Eff.writeln .yellow ("> " ++ command)
    match execResult with
    | Except.ok output =>
      { effects := [echo] ++ outputEffects command output ++
          (if executionTime > 1000 then [timeLine executionTime] else []),
        newDir := dir, executorCalled := true }
    | Except.error msg =>
      { effects := [echo, Eff.writeln .red ("Error: " ++ msg)] ++
          (if executionTime > 500 then [timeLine executionTime] else []) ++
          [Eff.write (dir ++ "$ ")],
        newDir := dir, executorCalled := true }

/-- Per-tab editor state captured by the `onData` closure: `currentLine`,
`commandHistory`, `historyPosition`, plus `tab.currentDirectory`. -/
structure EditorState where
  currentLine : String
  commandHistory : List String
  historyPosition : Int
  currentDirectory : String
deriving DecidableEq

/-- The closure's initial state (`currentLine = ''`, `commandHistory = []`,
`historyPosition = -1`, `currentDirectory = '/workspace'`). -/
def initState : EditorState :=
  { currentLine := "", commandHistory := [], historyPosition := -1,
    currentDirectory := "/workspace" }

/-- The prompt string `dir + '$ '`. -/
def promptStr (dir : String) : String := dir ++ "$ "

/-- The carriage-return-rewrite write used by several branches:
`write('\r' + dir + '$ ' + line)`. -/
def rewriteLine (dir line : String) : Eff :=
  Eff.write ("\r" ++ dir ++ "$ " ++ line)

/-- The remainder-clearing padding write: spaces up to the column count. -/
def padClear (cols : Nat) (dir line : String) : List Eff :=
  let remaining : Int :=
    (cols : Int) - (dir.toList.length : Int) - 2 - (line.toList.length : Int)
  if remaining > 0 then [Eff.write (charRepeat remaining.toNat ' ')] else []

/-- The history push on Enter:
`commandHistory = [command, ...commandHistory.slice(0, 99)]`. -/
def histPush (command : String) (h : List String) : List String :=
  command :: h.take 99

/-- Input events decoded by the `onData` handler, one per branch. -/
inductive Event where
  | ctrlC
  | ctrlL
  | ctrlW
  | ctrlK
  | backspace
  | enter
  | up
  | down
  | tab
  | char (c : Char)
deriving DecidableEq

/-- Shallow embedding of the `xtermTerminal.onData` callback: one input
event applied to the closure state.  `cols` is the terminal's column
count, `execResult`/`executionTime` parameterize the executor call made
by the Enter branch (ignored by every other branch). -/
def onData (cols : Nat) (st : EditorState) (ev : Event)
    (execResult : Except String String) (executionTime : Nat) :
    EditorState × List Eff :=
  let dir := st.currentDirectory
  match ev with
  | .ctrlC =>
    ({ st with currentLine := "" },
     [Eff.writeln .plain "^C", Eff.sleep 100, Eff.write (promptStr dir)])
  | .ctrlL =>
    (st,
     [Eff.clearScreen,
      Eff.writeln .cyan boxTop,
      Eff.writeln .cyan "║                     Terminal Cleared                          ║",
      Eff.writeln .cyan boxBottom,
      Eff.write (promptStr dir)])
  | .ctrlW =>
    let lastSpace := lastIndexOfChar st.currentLine ' '
    let line' := if lastSpace != -1 then jsTake st.currentLine (lastSpace.toNat + 1) else ""
    ({ st with currentLine := line' },
     [rewriteLine dir line'] ++ padClear cols dir line' ++ [rewriteLine dir line'])
  | .ctrlK =>
    let n := st.currentLine.toList.length
    ({ st with currentLine := "" },
     [Eff.write (charRepeat n '\x08' ++ charRepeat n ' ' ++ charRepeat n '\x08')])
  | .backspace =>
    if st.currentLine.toList.length > 0 then
      ({ st with currentLine := jsDropLast st.currentLine }, [Eff.write "\x08 \x08"])
    else (st, [])
  | .enter =>
    let command := jsTrim st.currentLine
    if command == "" then
      ({ st with currentLine := "" },
       [Eff.writeln .plain "", Eff.write (promptStr dir)])
    else
      let newHistory := histPush command st.commandHistory
      let out := executeCommand newHistory dir command execResult executionTime
      ({ st with
          currentLine := "",
          commandHistory := newHistory,
          currentDirectory := out.newDir },
       [Eff.writeln .plain ""] ++ out.effects ++ [Eff.write (promptStr out.newDir)])
  | .up =>
    if 0 < st.commandHistory.length ∧
        st.historyPosition < (st.commandHistory.length : Int) - 1 then
      let hp' := st.historyPosition + 1
      let line' := st.commandHistory.getD hp'.toNat ""
      ({ st with historyPosition := hp', currentLine := line' },
       [rewriteLine dir line'] ++ padClear cols dir line' ++ [rewriteLine dir line'])
    else (st, [])
  | .down =>
    let (hp', line') :=
      if st.historyPosition > 0 then
        let hp' := st.historyPosition - 1
        (hp', st.commandHistory.getD hp'.toNat "")
      else ((-1 : Int), "")
    ({ st with historyPosition := hp', currentLine := line' },
     [rewriteLine dir line'] ++ padClear cols dir line' ++
       [Eff.write ("\r" ++ dir ++ "$ "), Eff.write line'])
  | .tab =>
    let options := autocompleteOptions st.currentLine
    if options.length = 1 then
      let line' := options.headD ""
      ({ st with currentLine := line' }, [rewriteLine dir line'])
    else if options.length > 1 then
      (st,
       [Eff.writeln .plain "", Eff.writeln .cyan "Suggestions:"] ++
         options.map (fun cmd => Eff.writeln .green ("  " ++ cmd)) ++
         [rewriteLine dir st.currentLine])
    else
      (st, [Eff.write "  "])
  | .char c =>
    if c.toNat ≥ 32 then
      ({ st with currentLine := st.currentLine ++ String.mk [c] },
       [Eff.write (String.mk [c])])
    else (st, [])

/-- One terminal tab as tracked by the component (ids abstracted to the
creation counter; the tab list is kept in creation order because
`createTerminal` appends with `[...prev, newTab]`). -/
structure TabInfo where
  id : Nat
deriving DecidableEq

/-- The component state relevant to tab lifecycle: the `terminals` array
and `activeTerminalId`. -/
structure ManagerState where
  terminals : List TabInfo
  activeTerminalId : Option Nat
  nextId : Nat
deriving DecidableEq

/-- Initial component state: no tabs, no active tab. -/
def mInit : ManagerState := { terminals := [], activeTerminalId := none, nextId := 0 }

/-- `createTerminal`: append the new tab and make it active. -/
def createTerminal (st : ManagerState) : ManagerState :=
  { terminals := st.terminals ++ [{ id := st.nextId }],
    activeTerminalId := some st.nextId,
    nextId := st.nextId + 1 }

/-- Clicking a tab: `setActiveTerminalId(tab.id)`. -/
def setActive (st : ManagerState) (tid : Nat) : ManagerState :=
  { st with activeTerminalId := some tid }

/-- `closeTerminal(tabId)`: filter the tab out, print the closing notice
and schedule disposal; if the closed tab was active, `newTerminals[0]`
becomes active, and if no tab remains the active id becomes `null`. -/
def closeTerminal (st : ManagerState) (tabId : Nat) : ManagerState × List Eff :=
  let newTerminals := st.terminals.filter (fun t => t.id ≠ tabId)
  let closedEffs :=
    if st.terminals.any (fun t => t.id == tabId) then
      [Eff.writeln .yellow "[Terminal session closing...]", Eff.sleep 500, Eff.dispose]
    else []
  let newActive :=
    match newTerminals.head? with
    | some t => if st.activeTerminalId == some tabId then some t.id else st.activeTerminalId
    | none => none
  ({ st with terminals := newTerminals, activeTerminalId := newActive }, closedEffs)

/-- Run a script of events from the initial state with a fixed benign
environment (80 columns, executor returning `ok ""`, zero duration). -/
def runScript (evs : List Event) : EditorState :=
  evs.foldl (fun st ev => (onData 80 st ev (Except.ok "") 0).1) initState

/-- The texts of all `writeln` effects, in order. -/
def writtenLines (effs : List Eff) : List String :=
  effs.filterMap (fun e =>
    match e with
    | Eff.writeln _ s => some s
    | _ => none)

/-- Red-line test used for the error-handling claim. -/
def isRedEff (e : Eff) : Bool :=
  match e with
  | Eff.writeln .red _ => true
  | _ => false

lemma writtenLines_append (a b : List Eff) :
    writtenLines (a ++ b) = writtenLines a ++ writtenLines b := by
  simp [writtenLines]

lemma writtenLines_outputEffects (command output : String) :
    writtenLines (outputEffects command output) = nonEmptyLines output := by
  unfold outputEffects
  generalize nonEmptyLines output = l
  induction l with
  | nil => rfl
  | cons x xs ih =>
    cases h : isStreaming command <;>
      simp_all [writtenLines]

lemma foldl_histPush_len (cmds : List String) :
    ∀ h : List String, h.length + cmds.length ≤ 100 →
      (cmds.foldl (fun acc c => histPush c acc) h).length = h.length + cmds.length := by
  induction cmds with
  | nil => intro h _; simp
  | cons c cs ih =>
    intro h hb
    simp only [List.length_cons] at hb ⊢
    simp only [List.foldl_cons]
    have hlen : (histPush c h).length = h.length + 1 := by
      simp only [histPush, List.length_cons, List.length_take]
      omega
    have := ih (histPush c h) (by omega)
    omega

/-- **C1** (corrected): a submission via Enter whose trimmed buffer was
loaded from history leaves the history cursor at its pre-submission value
(here `1`), not `-1`: type `a`⏎ `b`⏎, press Up twice (cursor `1`, buffer
`a`), press Enter — the history cursor stays `1`. -/
theorem enter_reset_cex :
    jsTrim (runScript [.char 'a', .enter, .char 'b', .enter, .up, .up]).currentLine ≠ "" ∧
    (onData 80 (runScript [.char 'a', .enter, .char 'b', .enter, .up, .up]) .enter
        (Except.ok "") 0).1.historyPosition = 1 := by
  decide

/-- **C1** (amended): every submission via Enter (empty or non-empty
trimmed buffer) resets the buffer to empty — hence the cursor, which the
source keeps implicitly at the end of the buffer, is 0 — but leaves the
history cursor unchanged rather than resetting it to -1. -/
theorem enter_reset (cols : Nat) (st : EditorState)
    (r : Except String String) (t : Nat) :
    (onData cols st .enter r t).1.currentLine = "" ∧
    (onData cols st .enter r t).1.historyPosition = st.historyPosition := by
  simp only [onData]
  split <;> simp

/-- **C2** (counterexample): with history cursor `-1` and (typed) buffer
`abc`, a History Down event is not a no-op — it clears the buffer. -/
theorem down_at_rest_cex :
    (runScript [.char 'a', .char 'b', .char 'c']).historyPosition = -1 ∧
    (runScript [.char 'a', .char 'b', .char 'c']).currentLine = "abc" ∧
    (onData 80 (runScript [.char 'a', .char 'b', .char 'c']) .down
        (Except.ok "") 0).1.currentLine = "" := by
  decide

/-- **C2** (amended): when the history cursor is `-1`, History Down loads
the empty string into the buffer and leaves the history cursor at `-1`
(history list untouched); it is a no-op only if the buffer was already
empty. -/
theorem down_at_rest (cols : Nat) (st : EditorState)
    (r : Except String String) (t : Nat) (h : st.historyPosition = -1) :
    (onData cols st .down r t).1.currentLine = "" ∧
    (onData cols st .down r t).1.historyPosition = -1 ∧
    (onData cols st .down r t).1.commandHistory = st.commandHistory := by
  simp only [onData, h]
  norm_num

/-- Witness for `down_at_rest` at the initial state. -/
theorem down_at_rest_wit :
    (onData 80 initState .down (Except.ok "") 0).1.currentLine = "" :=
  (down_at_rest 80 initState (Except.ok "") 0 rfl).1

/-- **C3** (counterexample): create three tabs (ids 0,1,2), activate tab 0,
close it — the remaining tabs are `[1, 2]` and the code activates tab 1
(the oldest remaining), not tab 2 (the most recently created). -/
theorem close_active_cex :
    (closeTerminal (setActive (createTerminal (createTerminal (createTerminal mInit))) 0)
        0).1.terminals = [{ id := 1 }, { id := 2 }] ∧
    (closeTerminal (setActive (createTerminal (createTerminal (createTerminal mInit))) 0)
        0).1.activeTerminalId = some 1 := by
  decide

/-- **C3** (amended): whenever the active session is closed and at least
one session remains, the remaining session that comes first in the tab
list — i.e. the earliest created, since `createTerminal` appends — becomes
active. -/
theorem close_active (st : ManagerState) (tabId : Nat)
    (hact : st.activeTerminalId = some tabId)
    (t : TabInfo) (rest : List TabInfo)
    (hrem : st.terminals.filter (fun x => x.id ≠ tabId) = t :: rest) :
    (closeTerminal st tabId).1.activeTerminalId = some t.id := by
  simp only [closeTerminal, hrem, hact, List.head?_cons]
  simp

/-- Witness for `close_active`: two tabs, the first (and active) one is
closed, the second becomes active. -/
theorem close_active_wit :
    (closeTerminal (setActive (createTerminal (createTerminal mInit)) 0) 0).1.activeTerminalId
      = some 1 :=
  close_active (setActive (createTerminal (createTerminal mInit)) 0) 0 rfl
    { id := 1 } [] (by decide)

/-- **C4** (counterexample): bare `cd` (no argument) is not a builtin —
it is classified remote and the Executor is invoked for it — while
`--help` is an additional builtin alias not in the claimed list. -/
theorem classify_builtin_cex :
    classifyCommand "cd" = CommandClass.remote ∧
    (executeCommand [] "/workspace" "cd" (Except.ok "") 0).executorCalled = true ∧
    classifyCommand "--help" = CommandClass.builtinHelp := by
  decide

/-- **C4** (amended): dispatch classifies a (trimmed) command as builtin
exactly when it is `clear`, `history`, `help`, `--help`, `-h`, or starts
with `cd ` (so `cd` needs an argument; bare `cd` is dispatched remotely);
builtins are handled locally and the Executor is never invoked for them,
while every non-builtin reaches the Executor. -/
theorem classify_builtin (command : String) (history : List String)
    (dir : String) (r : Except String String) (t : Nat) :
    (classifyCommand command ≠ CommandClass.remote ↔
      (command = "clear" ∨ command = "history" ∨ command = "help" ∨
        command = "--help" ∨ command = "-h" ∨ jsStartsWith command "cd " = true)) ∧
    (classifyCommand command ≠ CommandClass.remote →
      (executeCommand history dir command r t).executorCalled = false) ∧
    (classifyCommand command = CommandClass.remote →
      (executeCommand history dir command r t).executorCalled = true) := by
  refine ⟨?_, ?_, ?_⟩
  · unfold classifyCommand
    split
    · simp_all
    · split
      · simp_all
      · split
        · simp_all
          tauto
        · split <;> simp_all
  · intro h
    rcases hc : classifyCommand command <;>
      simp_all [executeCommand]
  · intro h
    cases r <;> simp [executeCommand, h]

/-- Witness for `classify_builtin`: `clear` is a builtin and does not call
the Executor; `foo` is remote and does. -/
theorem classify_builtin_wit :
    (executeCommand [] "/workspace" "clear" (Except.ok "") 0).executorCalled = false ∧
    (executeCommand [] "/workspace" "foo" (Except.ok "") 0).executorCalled = true :=
  ⟨(classify_builtin "clear" [] "/workspace" (Except.ok "") 0).2.1 (by decide),
   (classify_builtin "foo" [] "/workspace" (Except.ok "") 0).2.2 (by decide)⟩

/-- **C5** (confirmed): the output formatter evaluates a fixed priority of
case-insensitive substring tests — error (`error`/`failed`), then warning
(`warning`), then success (`success`/`done`), then pointer (`→`/`=>`),
else plain — so in particular a line matching both the error and success
tests is classified error. -/
theorem classifyLine_priority (line : String) :
    (classifyLine line = Tag.error ↔ errTest line = true) ∧
    (classifyLine line = Tag.warning ↔ (errTest line = false ∧ warnTest line = true)) ∧
    (classifyLine line = Tag.success ↔
      (errTest line = false ∧ warnTest line = false ∧ succTest line = true)) ∧
    (classifyLine line = Tag.pointer ↔
      (errTest line = false ∧ warnTest line = false ∧ succTest line = false ∧
        pointerTest line = true)) ∧
    (classifyLine line = Tag.plain ↔
      (errTest line = false ∧ warnTest line = false ∧ succTest line = false ∧
        pointerTest line = false)) ∧
    ((errTest line = true ∧ succTest line = true) → classifyLine line = Tag.error) := by
  cases he : errTest line <;> cases hw : warnTest line <;>
    cases hs : succTest line <;> cases hp : pointerTest line <;>
      simp_all [classifyLine]

/-- Witness for `classifyLine_priority`: `error and success` matches both
the error and the success test and classifies as error. -/
theorem classifyLine_priority_wit :
    classifyLine "error and success" = Tag.error :=
  (classifyLine_priority "error and success").2.2.2.2.2 (by decide)

/-- **C6** (confirmed): the history push prepends unconditionally (no
deduplication) and truncates to 100; after N ≤ 100 submissions from an
empty history the length is N with the latest command at the head; when
100 entries are exceeded the tail entry is evicted and the length never
exceeds 100; and a non-empty Enter submission performs exactly this push. -/
theorem history_spec :
    (∀ (c : String) (h : List String), histPush c h = c :: h.take 99) ∧
    (∀ cmds : List String, cmds.length ≤ 100 →
      (cmds.foldl (fun acc c => histPush c acc) []).length = cmds.length) ∧
    (∀ (cmds : List String) (c : String),
      ((cmds ++ [c]).foldl (fun acc c => histPush c acc) []).headD "" = c) ∧
    (∀ (c : String) (h : List String), (histPush c h).length ≤ 100) ∧
    (∀ (c : String) (h : List String), h.length = 100 →
      histPush c h = c :: h.dropLast) ∧
    (∀ (cols : Nat) (st : EditorState) (r : Except String String) (t : Nat),
      jsTrim st.currentLine ≠ "" →
      (onData cols st .enter r t).1.commandHistory
        = histPush (jsTrim st.currentLine) st.commandHistory) := by
  refine ⟨fun c h => rfl, ?_, ?_, ?_, ?_, ?_⟩
  · intro cmds hb
    have := foldl_histPush_len cmds [] (by simpa using hb)
    simpa using this
  · intro cmds c
    rw [List.foldl_append]
    rfl
  · intro c h
    simp only [histPush, List.length_cons, List.length_take]
    omega
  · intro c h hlen
    simp only [histPush, List.dropLast_eq_take, hlen]
  · intro cols st r t hne
    have hbeq : (jsTrim st.currentLine == "") = false := by
      simpa using hne
    simp [onData, hbeq]

/-- Witness for `history_spec` at concrete submissions `x`, `y`. -/
theorem history_spec_wit :
    ((["x", "y"].foldl (fun acc c => histPush c acc) []).length = 2) ∧
    (((["x"] ++ ["y"]).foldl (fun acc c => histPush c acc) []).headD "" = "y") :=
  ⟨history_spec.2.1 ["x", "y"] (by decide), history_spec.2.2.1 ["x"] "y"⟩

/-- **C7** (confirmed): when the Executor rejects with `msg`, the dispatch
writes exactly one red line, namely `Error: msg`, ends by redisplaying the
prompt, leaves the working directory unchanged, and emits no disposal —
the session is never closed by a dispatch failure. -/
theorem dispatch_error_spec (history : List String) (dir command msg : String)
    (t : Nat) (hrem : classifyCommand command = CommandClass.remote) :
    ((executeCommand history dir command (Except.error msg) t).effects.filter isRedEff
      = [Eff.writeln Color.red ("Error: " ++ msg)]) ∧
    ((executeCommand history dir command (Except.error msg) t).effects.getLast?
      = some (Eff.write (dir ++ "$ "))) ∧
    ((executeCommand history dir command (Except.error msg) t).newDir = dir) ∧
    (Eff.dispose ∉ (executeCommand history dir command (Except.error msg) t).effects) := by
  simp only [executeCommand, hrem]
  refine ⟨?_, ?_, ?_, ?_⟩ <;>
    first
      | trivial
      | (split <;> simp [isRedEff, timeLine])

/-- Witness for `dispatch_error_spec`: rejection with `VM is not running`. -/
theorem dispatch_error_spec_wit :
    (executeCommand [] "/workspace" "foo" (Except.error "VM is not running") 0).effects.filter
        isRedEff
      = [Eff.writeln Color.red ("Error: " ++ "VM is not running")] :=
  (dispatch_error_spec [] "/workspace" "foo" "VM is not running" 0 (by decide)).1

/-- **C8** (confirmed): the completion query returns exactly the
vocabulary entries of which the buffer is a (case-sensitive) prefix, in
vocabulary order (a sublist of the vocabulary); and when more than one
candidate matches, Tab leaves the whole editor state unchanged and prints
one line per candidate, in that order, between the `Suggestions:` header
and the prompt rewrite. -/
theorem autocomplete_spec :
    (∀ (p c : String), c ∈ autocompleteOptions p ↔
      (c ∈ AUTOCOMPLETE_COMMANDS ∧ jsStartsWith c p = true)) ∧
    (∀ p : String, (autocompleteOptions p).Sublist AUTOCOMPLETE_COMMANDS) ∧
    (∀ (cols : Nat) (st : EditorState) (r : Except String String) (t : Nat),
      (autocompleteOptions st.currentLine).length > 1 →
      (onData cols st .tab r t).1 = st ∧
      (onData cols st .tab r t).2 =
        [Eff.writeln .plain "", Eff.writeln .cyan "Suggestions:"] ++
          (autocompleteOptions st.currentLine).map
            (fun cmd => Eff.writeln .green ("  " ++ cmd)) ++
          [rewriteLine st.currentDirectory st.currentLine]) := by
  refine ⟨?_, ?_, ?_⟩
  · intro p c
    simp [autocompleteOptions, List.mem_filter]
  · intro p
    exact List.filter_sublist _
  · intro cols st r t hgt
    have hne : ¬ (autocompleteOptions st.currentLine).length = 1 := by omega
    simp [onData, hne, hgt]

/-- Witness for `autocomplete_spec`: buffer `gr` has the two candidates
`grep` and `grep -r`; Tab leaves the state unchanged. -/
theorem autocomplete_spec_wit :
    (onData 80 ⟨"gr", [], -1, "/workspace"⟩ .tab (Except.ok "") 0).1
      = ⟨"gr", [], -1, "/workspace"⟩ :=
  (autocomplete_spec.2.2 80 ⟨"gr", [], -1, "/workspace"⟩ (Except.ok "") 0 (by decide)).1

/-- **C9** (counterexample): on buffer `zzz` (zero candidates) Tab writes
two spaces to the display only — the line buffer stays `zzz`, and the
following Enter submits `zzz`, not `zzz  `. -/
theorem tab_fallback_cex :
    autocompleteOptions "zzz" = [] ∧
    (runScript [.char 'z', .char 'z', .char 'z', .tab]).currentLine = "zzz" ∧
    (onData 80 (runScript [.char 'z', .char 'z', .char 'z']) .tab (Except.ok "") 0).2
      = [Eff.write "  "] ∧
    (runScript [.char 'z', .char 'z', .char 'z', .tab, .enter]).commandHistory = ["zzz"] := by
  decide

/-- **C9** (amended): when Tab finds zero completion candidates, the two
spaces are only written to the display; the line buffer (and the rest of
the editor state) is unchanged, so a subsequent Enter submits the buffer
without any appended spaces. -/
theorem tab_fallback (cols : Nat) (st : EditorState)
    (r : Except String String) (t : Nat)
    (h : autocompleteOptions st.currentLine = []) :
    (onData cols st .tab r t) = (st, [Eff.write "  "]) := by
  simp [onData, h]

/-- Witness for `tab_fallback` at buffer `zzz`. -/
theorem tab_fallback_wit :
    (onData 80 ⟨"zzz", [], -1, "/workspace"⟩ .tab (Except.ok "") 0)
      = (⟨"zzz", [], -1, "/workspace"⟩, [Eff.write "  "]) :=
  tab_fallback 80 ⟨"zzz", [], -1, "/workspace"⟩ (Except.ok "") 0 (by decide)

/-- **C10** (confirmed): a successful remote dispatch echoes exactly the
result lines surviving the whitespace filter — the written lines are the
command echo followed by `nonEmptyLines output` (plus the execution-time
trailer when the duration exceeds 1000 ms); a line of the split output is
kept iff its trim is non-empty, and the kept lines stay in output order. -/
theorem remote_output_filter (history : List String) (dir command output : String)
    (t : Nat) (hrem : classifyCommand command = CommandClass.remote) :
    (writtenLines (executeCommand history dir command (Except.ok output) t).effects
      = ("> " ++ command) :: nonEmptyLines output ++
          (if t > 1000 then ["[Execution time: " ++ toString t ++ "ms]"] else [])) ∧
    (∀ l : String, l ∈ nonEmptyLines output ↔
      (l ∈ jsSplitNewline output ∧ ¬ jsTrim l = "")) ∧
    ((nonEmptyLines output).Sublist (jsSplitNewline output)) := by
  refine ⟨?_, ?_, ?_⟩
  · simp only [executeCommand, hrem]
    rw [writtenLines_append, writtenLines_append, writtenLines_outputEffects]
    split <;> simp [writtenLines, timeLine]
  · intro l
    simp [nonEmptyLines, List.mem_filter]
  · exact List.filter_sublist _

/-- Witness for `remote_output_filter`: output `a\n  \n\nb ok` echoes
exactly `a` and `b ok`. -/
theorem remote_output_filter_wit :
    writtenLines (executeCommand [] "/workspace" "foo"
        (Except.ok "a\n  \n\nb ok") 0).effects
      = ("> " ++ "foo") :: nonEmptyLines "a\n  \n\nb ok" ++
          (if 0 > 1000 then ["[Execution time: " ++ toString 0 ++ "ms]"] else []) :=
  (remote_output_filter [] "/workspace" "foo" "a\n  \n\nb ok" 0 (by decide)).1

end Codestral

